import Mathlib

/-
  Verification of the analytics core of the PNG-Property rental dashboard
  (src/frontend/src/App.jsx), as a shallow embedding in Lean 4.

  JavaScript numbers are modelled by ℚ (all the arithmetic involved is exact
  on the inputs considered); the JS truthiness idiom `x || d` on numbers maps
  0 (and a missing value) to the default d.  The bubble-radius function uses a
  real square root and is modelled over ℝ.
-/

namespace PNGProperty

/-! ## Price classifier (App.jsx, mockListings lines 24-34) -/

inductive Label where
  | Deal
  | Fair
  | Overpriced
deriving DecidableEq

/-- pct = ((price - avg) / avg) * 100 (App.jsx line 33). -/
def pctOf (price avg : ℚ) : ℚ := (price - avg) / avg * 100

/-- mv = pct <= -15 ? Deal : pct >= 15 ? Overpriced : Fair (App.jsx line 34). -/
def labelOfPct (pct : ℚ) : Label :=
  if pct ≤ -15 then .Deal else if pct ≥ 15 then .Overpriced else .Fair

structure MarketValue where
  label : Label
  pct_vs_avg : ℚ
deriving DecidableEq

def marketValue (price avg : ℚ) : MarketValue :=
  ⟨labelOfPct (pctOf price avg), pctOf price avg⟩

/-- JS `x || d` on a number: 0 is falsy and is replaced by the default. -/
def jsOr (x d : ℚ) : ℚ := if x = 0 then d else x

/-- const base = benchmarks[suburb] || 2500 (App.jsx line 30): a missing
entry (undefined) or a zero benchmark both fall back to 2500. -/
def benchmarkOr (b : Option ℚ) : ℚ :=
  match b with
  | none => 2500
  | some v => jsOr v 2500

/-- The market value the mock generator attaches: the benchmark lookup with
its `|| 2500` default feeding the classifier (App.jsx lines 30-34). -/
def mockMarketValue (price : ℚ) (bench : Option ℚ) : MarketValue :=
  marketValue price (benchmarkOr bench)

/-- isFlag = l.market_value?.label==="Overpriced" && l.market_value?.pct_vs_avg>40
(App.jsx line 246, and the same predicate in FlagsView line 657). -/
def isFlag (mv : MarketValue) : Bool :=
  decide (mv.label = Label.Overpriced) && decide ((40 : ℚ) < mv.pct_vs_avg)

/-! ## Supply/demand classifier (App.jsx, SupplyDemand lines 210-215 and
AnalyticsView lines 609, 628-631) -/

inductive SdLabel where
  | HighDemand
  | Oversupply
  | Balanced
deriving DecidableEq

/-- Math.min(100, (supply / maxS) * 100).  (When maxS = 0 the JS code divides
by zero; in the repository maxS is the maximum of the supplies, so maxS = 0
forces supply = 0 and both semantics reach the `||` fallback below.) -/
def supplyPct (supply maxS : ℚ) : ℚ := min 100 (supply / maxS * 100)

/-- ratio>1.3 ? "High Demand" : ratio<0.7 ? "Oversupply" : "Balanced"
(App.jsx lines 214 and 630). -/
def ratioLabel (r : ℚ) : SdLabel :=
  if r > 13 / 10 then .HighDemand else if r < 7 / 10 then .Oversupply else .Balanced

/-- SupplyDemand line 213: (d.demand_score||50)/(Math.min(100,(d.supply/maxS)*100)||1). -/
def sdRatio (demand supply maxS : ℚ) : ℚ :=
  jsOr demand 50 / jsOr (supplyPct supply maxS) 1

def sdLabel (demand supply maxS : ℚ) : SdLabel :=
  ratioLabel (sdRatio demand supply maxS)

/-- AnalyticsView line 629: (d.demand_score||50)/(Math.min(100,(d.supply/maxSup)*100)||50). -/
def analyticsRatio (demand supply maxS : ℚ) : ℚ :=
  jsOr demand 50 / jsOr (supplyPct supply maxS) 50

def analyticsLabel (demand supply maxS : ℚ) : SdLabel :=
  ratioLabel (analyticsRatio demand supply maxS)

/-! ## Heatmap bubble radius (App.jsx, lines 165-166) -/

def r0 : ℝ := 22

def rRange : ℝ := 28

/-- rOf = l => 22 + ((l/maxL)**0.5) * 28 (App.jsx line 166). -/
noncomputable def rOf (maxL l : ℝ) : ℝ := r0 + Real.sqrt (l / maxL) * rRange

/-! ## Trend line chart (App.jsx, LineChart lines 130-157)

The chart reads three fixed series keys (Waigani, Boroko, Gerehu) from each
point; a point's value for a series is an `Option ℚ` (none = the key is
absent).  Chart constants: W=560, H=160, PL=55, PB=28, PT=12, PR=16, hence
iW = 489 and iH = 120. -/

structure TrendPoint where
  week : String
  w : Option ℚ
  b : Option ℚ
  g : Option ℚ
deriving DecidableEq

/-- JS truthiness of a series value: an absent value and the number 0 are
both falsy (`d[k] ? ... : ...` and `.filter(Boolean)`). -/
def truthyVal : Option ℚ → Option ℚ
  | none => none
  | some v => if v = 0 then none else some v

/-- if (!trends?.length) return the no-data branch (App.jsx line 131). -/
def lineChartNoData : Option (List TrendPoint) → Bool
  | none => true
  | some t => t.isEmpty

/-- allV = trends.flatMap(d => keys.map(k=>d[k]).filter(Boolean)) (line 136). -/
def allV : List TrendPoint → List ℚ
  | [] => []
  | d :: rest => ([d.w, d.b, d.g].filterMap truthyVal) ++ allV rest

/-- minV = Math.min(...allV) (line 137; on an empty pool the JS value is
Infinity — modelled as 0, which no theorem depends on since an empty pool
renders no geometry). -/
def minV (t : List TrendPoint) : ℚ :=
  match allV t with
  | [] => 0
  | x :: xs => xs.foldl min x

/-- maxV = Math.max(...allV) (line 137). -/
def maxV (t : List TrendPoint) : ℚ :=
  match allV t with
  | [] => 0
  | x :: xs => xs.foldl max x

/-- range = maxV - minV || 1 (line 137). -/
def rangeOf (t : List TrendPoint) : ℚ := jsOr (maxV t - minV t) 1

/-- toX = i => PL + (i/(trends.length-1)) * iW (line 138). -/
def toX (n i : Nat) : ℚ := 55 + ((i : ℚ) / ((n : ℚ) - 1)) * 489

/-- toY = v => PT + iH - ((v-minV)/range) * iH (line 139). -/
def toY (mn rng v : ℚ) : ℚ := 12 + 120 - ((v - mn) / rng) * 120

/-- The vertices contributed to a series' polyline, walking the points with
their indices: a truthy value at index i contributes (toX n i, toY mn rng v),
a falsy one contributes nothing (line 147: the empty strings produced for
falsy values are removed by `.filter(Boolean)` before the join). -/
def ptsAux (f : TrendPoint → Option ℚ) (n : Nat) (mn rng : ℚ) :
    Nat → List TrendPoint → List (ℚ × ℚ)
  | _, [] => []
  | i, d :: rest =>
    match truthyVal (f d) with
    | some v => (toX n i, toY mn rng v) :: ptsAux f n mn rng (i + 1) rest
    | none => ptsAux f n mn rng (i + 1) rest

/-- pts for one series key (line 147). -/
def ptsOf (f : TrendPoint → Option ℚ) (t : List TrendPoint) : List (ℚ × ℚ) :=
  ptsAux f t.length (minV t) (rangeOf t) 0 t

/-- The segments a single polyline draws: each consecutive pair of its
vertex list (line 150). -/
def polySegments (pts : List (ℚ × ℚ)) : List ((ℚ × ℚ) × (ℚ × ℚ)) :=
  pts.zip pts.tail

/-! ## Scrape panel state machine (App.jsx, ScrapePanel lines 266-338) -/

structure ScrapeJob where
  job_id : Option String
  status : String
deriving DecidableEq

/-- d.status==="complete" || d.status==="error" (line 285). -/
def isTerminal (s : String) : Bool := s == "complete" || s == "error"

/-- The panel's job-related state: the `job` and `polling` useState cells and
whether the poll interval (pollRef) is currently registered. -/
structure PanelState where
  job : Option ScrapeJob
  polling : Bool
  timer : Bool
deriving DecidableEq

/-- Before any trigger: job = null, polling = false, no interval. -/
def idlePanel : PanelState := ⟨none, false, false⟩

/-- The trigger handler (lines 276-279): a null apiFetch result does nothing;
a non-null result is stored and polling is switched on. -/
def triggerStep (s : PanelState) (resp : Option ScrapeJob) : PanelState :=
  match resp with
  | none => s
  | some d => ⟨some d, true, s.timer⟩

/-- JS truthiness of job?.job_id: absent or empty string is falsy. -/
def jsStrTruthy : Option String → Bool
  | none => false
  | some s => !s.isEmpty

/-- The poll effect body (lines 281-283): the interval is registered only
when polling is on and the stored job has a truthy job_id. -/
def startPollEffect (s : PanelState) : PanelState :=
  if s.polling && jsStrTruthy (s.job.bind ScrapeJob.job_id) then ⟨s.job, s.polling, true⟩
  else s

/-- One interval tick (lines 284-285), which only happens while the interval
is registered: a null status response changes nothing; otherwise the job is
stored and a terminal status switches polling off and clears the interval. -/
def pollTick (s : PanelState) (resp : Option ScrapeJob) : PanelState :=
  if s.timer then
    match resp with
    | none => s
    | some d =>
      if isTerminal d.status then ⟨some d, false, false⟩
      else ⟨some d, s.polling, s.timer⟩
  else s

/-- A status request goes out on a tick exactly while the interval is live. -/
def issuesRequest (s : PanelState) : Bool := s.timer

/-- The effect cleanup (line 287): clearInterval(pollRef.current). -/
def teardown (s : PanelState) : PanelState := ⟨s.job, s.polling, false⟩

/-- What the panel body renders (lines 300-334): the configuration form when
job is null, the job-progress panel otherwise.  No error element exists. -/
inductive PanelRender where
  | configForm
  | jobPanel
deriving DecidableEq

def renderPanel (s : PanelState) : PanelRender :=
  match s.job with
  | none => .configForm
  | some _ => .jobPanel

/-! ## Sample data for witnesses and counterexamples -/

def sampleRunning : PanelState := ⟨some ⟨some "j1", "running"⟩, true, true⟩

def sampleComplete : ScrapeJob := ⟨some "j1", "complete"⟩

def gapTrends : List TrendPoint :=
  [⟨"w1", some 10, none, none⟩, ⟨"w2", none, none, none⟩, ⟨"w3", some 20, none, none⟩]

def zeroTrends : List TrendPoint :=
  [⟨"w1", some 10, none, none⟩, ⟨"w2", some 0, none, none⟩, ⟨"w3", some 20, none, none⟩]

def singlePoint : TrendPoint := ⟨"Jan 19", some 4200, none, none⟩

/-! ## Helper lemmas -/

theorem truthyVal_ne_zero {o : Option ℚ} {v : ℚ} (h : truthyVal o = some v) : v ≠ 0 := by
  cases o with
  | none => simp [truthyVal] at h
  | some x =>
    by_cases hx : x = 0
    · simp [truthyVal, hx] at h
    · simp [truthyVal, hx] at h
      exact h ▸ hx

theorem toX_inj {n i j : Nat} (hn : 2 ≤ n) (h : toX n i = toX n j) : i = j := by
  have hcast : (2 : ℚ) ≤ (n : ℚ) := by exact_mod_cast hn
  have hne : ((n : ℚ) - 1) ≠ 0 := by linarith
  unfold toX at h
  have hq : (i : ℚ) = (j : ℚ) := by
    field_simp at h
    exact_mod_cast h
  exact_mod_cast hq

theorem mem_ptsAux_fst {f : TrendPoint → Option ℚ} {n : Nat} {mn rng x : ℚ} :
    ∀ (i : Nat) (l : List TrendPoint), x ∈ (ptsAux f n mn rng i l).map Prod.fst →
      ∃ k d, l.get? k = some d ∧ truthyVal (f d) ≠ none ∧ x = toX n (i + k) := by
  intro i l
  induction l generalizing i with
  | nil => simp [ptsAux]
  | cons d rest ih =>
    intro hx
    unfold ptsAux at hx
    cases htv : truthyVal (f d) with
    | some v =>
      rw [htv] at hx
      simp only [List.map_cons, List.mem_cons] at hx
      rcases hx with hx | hx
      · exact ⟨0, d, rfl, by simp [htv], by simpa using hx⟩
      · obtain ⟨k, d', hget, htr, hxeq⟩ := ih (i + 1) hx
        exact ⟨k + 1, d', by simpa using hget, htr, by rw [hxeq]; ring_nf⟩
    | none =>
      rw [htv] at hx
      obtain ⟨k, d', hget, htr, hxeq⟩ := ih (i + 1) hx
      exact ⟨k + 1, d', by simpa using hget, htr, by rw [hxeq]; ring_nf⟩

/-- A falsy series value at index i contributes no vertex with x-coordinate
toX n i to that series' point list (length at least 2 so that the x scale is
injective). -/
theorem no_vertex_of_falsy {t : List TrendPoint} {i : Nat} {d : TrendPoint}
    (hn : 2 ≤ t.length) (hget : t.get? i = some d)
    (hmiss : truthyVal d.w = none) :
    toX t.length i ∉ (ptsOf TrendPoint.w t).map Prod.fst := by
  intro hmem
  obtain ⟨k, d', hget', htr, hxeq⟩ := mem_ptsAux_fst 0 t hmem
  have hik : i = k := by simpa using toX_inj hn hxeq
  subst hik
  rw [hget] at hget'
  injection hget' with hd
  exact htr (hd ▸ hmiss)

theorem labelOfPct_deal_iff (pct : ℚ) : labelOfPct pct = Label.Deal ↔ pct ≤ -15 := by
  unfold labelOfPct
  split_ifs with h1 h2 <;> simp_all

theorem labelOfPct_over_iff (pct : ℚ) : labelOfPct pct = Label.Overpriced ↔ 15 ≤ pct := by
  unfold labelOfPct
  split_ifs with h1 h2 <;> simp_all
  linarith

theorem labelOfPct_fair_iff (pct : ℚ) :
    labelOfPct pct = Label.Fair ↔ -15 < pct ∧ pct < 15 := by
  unfold labelOfPct
  split_ifs with h1 h2
  · simp only [reduceCtorEq, false_iff, not_and]
    intro hlt
    linarith
  · simp only [reduceCtorEq, false_iff, not_and]
    intro hlt
    linarith
  · simp only [true_iff]
    exact ⟨by linarith [not_le.mp h1], by linarith [not_le.mp h2]⟩

/-! ## Claim theorems -/

/-- C1: for every price p and benchmark b > 0, the market-value label
computed from pct = (p - b)/b * 100 is Deal exactly when pct ≤ -15,
Overpriced exactly when pct ≥ 15, and Fair exactly otherwise; both
boundaries are closed. -/
theorem classify_label_thresholds (p b : ℚ) (_hb : 0 < b) :
    ((marketValue p b).label = Label.Deal ↔ pctOf p b ≤ -15) ∧
    ((marketValue p b).label = Label.Overpriced ↔ 15 ≤ pctOf p b) ∧
    ((marketValue p b).label = Label.Fair ↔ -15 < pctOf p b ∧ pctOf p b < 15) :=
  ⟨labelOfPct_deal_iff (pctOf p b), labelOfPct_over_iff (pctOf p b),
    labelOfPct_fair_iff (pctOf p b)⟩

theorem classify_label_thresholds_witness :
    (0 : ℚ) < 1000 ∧
    (((marketValue 2000 1000).label = Label.Deal ↔ pctOf 2000 1000 ≤ -15) ∧
     ((marketValue 2000 1000).label = Label.Overpriced ↔ 15 ≤ pctOf 2000 1000) ∧
     ((marketValue 2000 1000).label = Label.Fair ↔
        -15 < pctOf 2000 1000 ∧ pctOf 2000 1000 < 15)) :=
  ⟨by norm_num, classify_label_thresholds 2000 1000 (by norm_num)⟩

/-- C2 counterexample: classifying price 3000 against a zero suburb benchmark
does not fail — the zero benchmark is silently replaced by the default 2500
and a definite verdict (Overpriced, pct = 20) is produced. -/
theorem zero_benchmark_classifies_anyway :
    mockMarketValue 3000 (some 0) = ⟨Label.Overpriced, 20⟩ := by
  have hp : pctOf 3000 (benchmarkOr (some 0)) = 20 := by
    norm_num [pctOf, benchmarkOr, jsOr]
  unfold mockMarketValue marketValue
  rw [hp, labelOfPct]
  norm_num

/-- C2 amended: a zero or missing suburb benchmark is silently replaced by
the default 2500 before classification, so the effective benchmark is never
zero and the percentage is always a finite rational; no InvalidBenchmark
failure is raised. -/
theorem benchmark_default_never_zero (price : ℚ) (bench : Option ℚ) :
    benchmarkOr bench ≠ 0 ∧
    (bench = some 0 ∨ bench = none → mockMarketValue price bench = marketValue price 2500) := by
  constructor
  · cases bench with
    | none => norm_num [benchmarkOr]
    | some v =>
      by_cases hv : v = 0
      · norm_num [benchmarkOr, jsOr, hv]
      · simp only [benchmarkOr, jsOr, if_neg hv]
        exact hv
  · rintro (h | h) <;> subst h <;> rfl

/-- C3: the middleman flag is raised exactly when the label is Overpriced and
pct > 40 (strict: at pct = 40 — price 3500 against benchmark 2500 — the
listing is Overpriced but not flagged), and the label is a function of price
and benchmark alone, so the flag never affects the label computation. -/
theorem middleman_flag_iff (mv : MarketValue) (p b : ℚ) :
    (isFlag mv = true ↔ mv.label = Label.Overpriced ∧ 40 < mv.pct_vs_avg) ∧
    (marketValue p b).label = labelOfPct (pctOf p b) ∧
    (marketValue 3500 2500).label = Label.Overpriced ∧
    isFlag (marketValue 3500 2500) = false := by
  have h40 : pctOf 3500 2500 = 40 := by norm_num [pctOf]
  refine ⟨by simp [isFlag], rfl, ?_, ?_⟩
  · show labelOfPct (pctOf 3500 2500) = Label.Overpriced
    rw [h40, labelOfPct]
    norm_num
  · show isFlag ⟨labelOfPct (pctOf 3500 2500), pctOf 3500 2500⟩ = false
    simp only [isFlag, h40]
    norm_num

/-- C4: a poll tick that returns a terminal status (complete or error) stops
the recurring poll at once — the interval is cleared and polling is off, any
later tick leaves the state unchanged and issues no status request, re-running
the poll effect does not re-register the interval — and the teardown cleanup
clears the interval from any state. -/
theorem poll_terminal_stops (s : PanelState) (d : ScrapeJob)
    (ht : s.timer = true) (hterm : isTerminal d.status = true) :
    (pollTick s (some d)).timer = false ∧
    (pollTick s (some d)).polling = false ∧
    (∀ resp, pollTick (pollTick s (some d)) resp = pollTick s (some d)) ∧
    issuesRequest (pollTick s (some d)) = false ∧
    startPollEffect (pollTick s (some d)) = pollTick s (some d) ∧
    (teardown s).timer = false := by
  refine ⟨?_, ?_, ?_, ?_, ?_, rfl⟩ <;>
    simp [pollTick, ht, hterm, issuesRequest, startPollEffect]

theorem poll_terminal_stops_witness :
    (pollTick sampleRunning (some sampleComplete)).timer = false ∧
    (pollTick sampleRunning (some sampleComplete)).polling = false ∧
    (∀ resp, pollTick (pollTick sampleRunning (some sampleComplete)) resp =
      pollTick sampleRunning (some sampleComplete)) ∧
    issuesRequest (pollTick sampleRunning (some sampleComplete)) = false ∧
    startPollEffect (pollTick sampleRunning (some sampleComplete)) =
      pollTick sampleRunning (some sampleComplete) ∧
    (teardown sampleRunning).timer = false :=
  poll_terminal_stops sampleRunning sampleComplete rfl rfl

/-- C5 counterexample: a failed trigger request (null response) leaves the
panel state bit-for-bit unchanged — still Idle, rendering the plain
configuration form — so nothing the user sees changes: no error surface is
presented. -/
theorem trigger_failure_silent :
    triggerStep idlePanel none = idlePanel ∧
    renderPanel (triggerStep idlePanel none) = PanelRender.configForm := ⟨rfl, rfl⟩

/-- C5 amended: if the trigger request fails, the controller deterministically
stays in Idle — the state is unchanged from any state, so from Idle no polling
starts and the configuration form is still rendered — but no visible error
surface is presented (the state, hence the render, is identical to before the
attempt; the panel has no error element). -/
theorem trigger_failure_stays_idle (s : PanelState) :
    triggerStep s none = s ∧
    (triggerStep idlePanel none).polling = false ∧
    renderPanel (triggerStep idlePanel none) = PanelRender.configForm :=
  ⟨rfl, rfl, rfl⟩

/-- C6 counterexample: in the analytics view, demand_score 60 with supply 0
out of cohort maximum 10 gives supplyPct = 0, which falls back through `||50`
to denominator 50 — ratio = 60/50 = 1.2 — and the label is Balanced, not the
High-Demand the claim requires for a zero supply percentage. -/
theorem analytics_zero_supply_balanced :
    supplyPct 0 10 = 0 ∧ analyticsLabel 60 0 10 = SdLabel.Balanced := by
  have hsp : supplyPct 0 10 = 0 := by norm_num [supplyPct]
  have hr : analyticsRatio 60 0 10 = 6 / 5 := by
    norm_num [analyticsRatio, jsOr, hsp]
  refine ⟨hsp, ?_⟩
  unfold analyticsLabel
  rw [hr, ratioLabel]
  norm_num

/-- C6 amended: both supply/demand views label with ratio > 1.3 High-Demand,
ratio < 0.7 Oversupply, else Balanced; when supplyPct ≠ 0 and demand_score ≠ 0
both compute the same ratio = demand_score / supplyPct and therefore the same
label; but when supplyPct = 0 the dashboard panel falls back to denominator 1
(ratio = demand_score, with its own `||50` default) while the analytics view
falls back to denominator 50, so a zero supply percentage is not in general
High-Demand there. -/
theorem supply_demand_two_fallbacks (demand supply maxS : ℚ) :
    (supplyPct supply maxS ≠ 0 → demand ≠ 0 →
      sdLabel demand supply maxS = ratioLabel (demand / supplyPct supply maxS) ∧
      analyticsLabel demand supply maxS = ratioLabel (demand / supplyPct supply maxS)) ∧
    (supplyPct supply maxS = 0 →
      sdRatio demand supply maxS = jsOr demand 50 ∧
      analyticsRatio demand supply maxS = jsOr demand 50 / 50) := by
  constructor
  · intro hsp hd
    constructor
    · unfold sdLabel sdRatio
      rw [jsOr, if_neg hd, jsOr, if_neg hsp]
    · unfold analyticsLabel analyticsRatio
      rw [jsOr, if_neg hd, jsOr, if_neg hsp]
  · intro hsp
    constructor
    · unfold sdRatio
      rw [hsp]
      norm_num [jsOr]
    · unfold analyticsRatio
      rw [hsp]
      norm_num [jsOr]

/-- C7: for a fixed maximum listing count maxL > 0 the bubble radius
r = r0 + sqrt(l / maxL) * rRange (r0 = 22, rRange = 28) is monotone
non-decreasing in the listing count, equals r0 + rRange at l = maxL and
equals r0 at l = 0. -/
theorem bubble_radius_sqrt_scale (maxL l1 l2 : ℝ)
    (hm : 0 < maxL) (_h0 : 0 ≤ l1) (h12 : l1 ≤ l2) :
    rOf maxL l1 ≤ rOf maxL l2 ∧ rOf maxL maxL = r0 + rRange ∧ rOf maxL 0 = r0 := by
  refine ⟨?_, ?_, ?_⟩
  · have hdiv : l1 / maxL ≤ l2 / maxL := by gcongr
    have hs : Real.sqrt (l1 / maxL) ≤ Real.sqrt (l2 / maxL) := Real.sqrt_le_sqrt hdiv
    unfold rOf rRange
    nlinarith [hs]
  · unfold rOf
    rw [div_self hm.ne', Real.sqrt_one, one_mul]
  · unfold rOf
    rw [zero_div, Real.sqrt_zero, zero_mul, add_zero]

theorem bubble_radius_sqrt_scale_witness :
    (0 : ℝ) < 4 ∧ (0 : ℝ) ≤ 1 ∧ (1 : ℝ) ≤ 2 ∧
    (rOf 4 1 ≤ rOf 4 2 ∧ rOf 4 4 = r0 + rRange ∧ rOf 4 0 = r0) :=
  ⟨by norm_num, by norm_num, by norm_num,
    bubble_radius_sqrt_scale 4 1 2 (by norm_num) (by norm_num) (by norm_num)⟩

/-- C8 counterexample: a single-point trend input — fewer than 2 points —
does not report "no data": the guard `!trends?.length` only catches a null or
empty input, so the data branch is rendered and the coordinate computation
with its division by length - 1 = 0 is reached. -/
theorem single_point_passes_guard :
    lineChartNoData (some [singlePoint]) = false := rfl

/-- C8 amended: the no-data branch is rendered exactly for a null or empty
trends input; a single-point input (1 < 2 points) passes the guard and
reaches the coordinate computation whose x denominator length - 1 is 0. -/
theorem no_data_iff_null_or_empty (t : Option (List TrendPoint)) :
    lineChartNoData t = true ↔ t = none ∨ t = some [] := by
  cases t with
  | none => simp [lineChartNoData]
  | some l => cases l <;> simp [lineChartNoData]

/-- C9 counterexample: with the Waigani series present at indices 0 and 2 and
missing at index 1, the rendered polyline consists of exactly one segment
joining the two present neighbours — from (toX 3 0, toY) = (55, 132) to
(toX 3 2, toY) = (544, 12) — so the connecting line is not broken at the
missing index: the chart draws straight across it. -/
theorem missing_value_line_joined :
    polySegments (ptsOf TrendPoint.w gapTrends) = [((55, 132), (544, 12))] := by
  have hall : allV gapTrends = [10, 20] := by
    norm_num [allV, gapTrends, truthyVal, List.filterMap_cons, List.filterMap_nil]
  have hmin : minV gapTrends = 10 := by
    unfold minV
    rw [hall]
    norm_num
  have hmax : maxV gapTrends = 20 := by
    unfold maxV
    rw [hall]
    norm_num
  have hrng : rangeOf gapTrends = 10 := by
    unfold rangeOf
    rw [hmin, hmax]
    norm_num [jsOr]
  have hpts : ptsOf TrendPoint.w gapTrends =
      [(toX 3 0, toY 10 10 10), (toX 3 2, toY 10 10 20)] := by
    unfold ptsOf
    rw [hmin, hrng]
    norm_num [ptsAux, gapTrends, truthyVal]
  rw [hpts]
  unfold polySegments
  norm_num [toX, toY]

/-- C9 amended: a series with a missing value at index i renders no point and
no polyline vertex at that index — no vertex of that series' point list sits
at x = toX N i — but the polyline is a single joined chain of the present
vertices, so the connecting line is not broken across the gap. -/
theorem missing_value_no_vertex (t : List TrendPoint) (i : Nat) (d : TrendPoint)
    (hn : 2 ≤ t.length) (hget : t.get? i = some d) (hmiss : d.w = none) :
    toX t.length i ∉ (ptsOf TrendPoint.w t).map Prod.fst :=
  no_vertex_of_falsy hn hget (by rw [hmiss]; rfl)

theorem missing_value_no_vertex_witness :
    toX gapTrends.length 1 ∉ (ptsOf TrendPoint.w gapTrends).map Prod.fst :=
  missing_value_no_vertex gapTrends 1 ⟨"w2", none, none, none⟩ (by decide) rfl rfl

/-- C10: a present series value equal to 0 is treated exactly like a missing
value: the truthiness test maps some 0 and none to the same result, the value
0 never enters the pool from which the global min/max are computed, and a
point whose series value is 0 yields no rendered vertex at its index. -/
theorem zero_value_like_missing (t : List TrendPoint) (i : Nat) (d : TrendPoint)
    (hn : 2 ≤ t.length) (hget : t.get? i = some d) (hzero : d.w = some 0) :
    truthyVal (some 0) = truthyVal none ∧
    (0 : ℚ) ∉ allV t ∧
    toX t.length i ∉ (ptsOf TrendPoint.w t).map Prod.fst := by
  refine ⟨rfl, ?_, ?_⟩
  · intro hmem
    clear hget hzero hn
    induction t with
    | nil => simp [allV] at hmem
    | cons d' rest ih =>
      unfold allV at hmem
      rw [List.mem_append] at hmem
      rcases hmem with hmem | hmem
      · rw [List.mem_filterMap] at hmem
        obtain ⟨o, _, ho⟩ := hmem
        exact truthyVal_ne_zero ho rfl
      · exact ih hmem
  · exact no_vertex_of_falsy hn hget (by rw [hzero]; rfl)

theorem zero_value_like_missing_witness :
    truthyVal (some 0) = truthyVal none ∧
    (0 : ℚ) ∉ allV zeroTrends ∧
    toX zeroTrends.length 1 ∉ (ptsOf TrendPoint.w zeroTrends).map Prod.fst :=
  zero_value_like_missing zeroTrends 1 ⟨"w2", some 0, none, none⟩ (by decide) rfl rfl

end PNGProperty
